import Mathlib

/-!
Shallow embedding of the mzIdentML incremental writer core
(`psims/mzid/writer.py`) and the identity-registry / component layer it
depends on.  Pure source logic (the tolerance classification, the
`ProteinDetectionListSection` count handling, `DocumentSection` lifecycle)
is translated directly from `writer.py`.  The components module
(`psims/mzid/components.py`) is not part of the sources; every definition
that stands in for it carries a doc comment starting `Modelled from the
spec:` and follows the specification's wording.
-/

namespace Psims

/-- Modelled from the spec: an assigned identifier.  The identity registry
(components module, absent from the sources) either takes an explicit key at
face value or synthesizes a fresh identifier from a per-category counter;
auto-generated identifiers are kept syntactically apart from explicit ones so
that the registry's uniqueness guarantee ("synthesizes a new id unique within
category") holds by construction. -/
inductive Ident where
  | auto (n : Nat)
  | explicit (key : String)
deriving Repr, DecidableEq

/-- Modelled from the spec: a semantic key supplied to the registry — an
explicit identifier or the auto-generation sentinel (`AUTO` in the
components module, absent from the sources). -/
inductive Key where
  | auto
  | explicit (s : String)
deriving Repr, DecidableEq

/-- Association-list lookup keyed by string equality. -/
def lookupKey {α : Type} (k : String) : List (String × α) → Option α
  | [] => none
  | (k', v) :: t => if k' = k then some v else lookupKey k t

/-- Modelled from the spec: per-category registry state — the
key-to-identifier table, every
identifier assigned so far (most recent first), and the auto-id counter. -/
structure CatState where
  table : List (String × Ident)
  assigned : List Ident
  counter : Nat
deriving Repr, DecidableEq

def CatState.empty : CatState := ⟨[], [], 0⟩

/-- Modelled from the spec: the per-document Identity Registry of the
components module (absent from the sources): "mapping Category → mapping
Semantic Key → assigned Identifier". -/
structure Registry where
  cats : List (String × CatState)
deriving Repr, DecidableEq

def Registry.empty : Registry := ⟨[]⟩

def Registry.getCat (r : Registry) (c : String) : CatState :=
  (lookupKey c r.cats).getD CatState.empty

def Registry.setCat (r : Registry) (c : String) (s : CatState) : Registry :=
  ⟨(c, s) :: r.cats⟩

/-- Modelled from the spec: `register(category, key) -> id` of the
components module (absent from the sources): "if `key` already mapped under
`category`, returns existing id (idempotent); otherwise, if `key` is the
auto-generation sentinel, synthesizes a new id unique within `category`
(implementation may use a monotonically increasing per-category counter),
stores and returns it; otherwise stores `key` itself as the id". -/
def Registry.register (r : Registry) (cat : String) (k : Key) : Ident × Registry :=
  let st := r.getCat cat
  match k with
  | Key.auto =>
      let i := Ident.auto st.counter
      (i, r.setCat cat ⟨st.table, i :: st.assigned, st.counter + 1⟩)
  | Key.explicit s =>
      match lookupKey s st.table with
      | some i => (i, r)
      | none =>
          let i := Ident.explicit s
          (i, r.setCat cat ⟨(s, i) :: st.table, i :: st.assigned, st.counter⟩)

/-- Well-formedness of a registry: every auto identifier ever assigned in a
category is below that category's counter. -/
def Registry.WF (r : Registry) : Prop :=
  ∀ c : String, ∀ i ∈ (r.getCat c).assigned, ∀ n : Nat,
    i = Ident.auto n → n < (r.getCat c).counter

/-! Part: Tolerance classification (`spectrum_identification_protocol`,
`writer.py` lines 279-293). -/

/-- Modelled from the spec: the `FragmentTolerance` / `ParentTolerance`
component constructors (components module, absent from the sources) keep
their three positional arguments: a numeric value, a second optional value,
and a unit name. -/
structure ToleranceValue where
  value : ℚ
  second : Option ℚ
  unitName : String
deriving Repr, DecidableEq

/-- The three run-time shapes a tolerance argument can take in
`spectrum_identification_protocol`: a list/tuple (passed through to the
component constructor positionally), a bare number, or `None`. -/
inductive ToleranceInput where
  | listLike (a : ℚ) (b : Option ℚ) (u : String)
  | number (q : ℚ)
  | noneInput
deriving Repr, DecidableEq

/-- Lines 279-285 of writer.py: dispatch on the shape of `fragment_tolerance`;
a bare number below `1e-4` becomes parts-per-million scaled by `1e6`,
otherwise dalton unchanged. -/
def resolveFragmentTolerance : ToleranceInput → Option ToleranceValue
  | ToleranceInput.listLike a b u => some ⟨a, b, u⟩
  | ToleranceInput.number q =>
      if q < 1 / 10000 then some ⟨q * 1000000, none, "parts per million"⟩
      else some ⟨q, none, "dalton"⟩
  | ToleranceInput.noneInput => none

/-- Lines 287-293 of writer.py: the same dispatch for `parent_tolerance`. -/
def resolveParentTolerance : ToleranceInput → Option ToleranceValue
  | ToleranceInput.listLike a b u => some ⟨a, b, u⟩
  | ToleranceInput.number q =>
      if q < 1 / 10000 then some ⟨q * 1000000, none, "parts per million"⟩
      else some ⟨q, none, "dalton"⟩
  | ToleranceInput.noneInput => none

/-! Part: Parameters and stream events -/

/-- Modelled from the spec: a controlled-vocabulary or user parameter, as
prepared by `prepare_params` — an optional accession, a name, and an
optional (integer) value.  Parameter nodes of the components module
(absent from the sources) carry canonical `(accession, name, value)`
data supplied by the controlled-vocabulary catalog. -/
structure Param where
  accession : Option String
  name : String
  value : Option Int
deriving Repr, DecidableEq

/-- Modelled from the spec: the `FragmentationTable` component of the
components module (absent from the sources): the measurement-table element
that must appear as the first child of a results-list container; it holds a
list of measure names.  As a component object it is truthy regardless of its
contents. -/
structure FragmentationTable where
  measures : List String
deriving Repr, DecidableEq

/-- Modelled from the spec: `FragmentationTable()` with no arguments — the
default measurement table constructed by `spectrum_identification_list` when
`measures` is `None`. -/
def defaultFragmentationTable : FragmentationTable := ⟨[]⟩

/-- Events of the forward-only output stream, in the order they are handed
to the byte-stream XML encoder: opening a container element (with its
optional id attribute), emitting a parameter, writing a pre-populated
fragmentation table, a provider element, a whole-component write, closing a
container element, and flushing. -/
inductive Event where
  | openTag (tag : String) (id : Option String)
  | param (p : Param)
  | fragmentationTable (t : FragmentationTable)
  | provider (contact : Option Ident)
  | component (name : String)
  | closeTag (tag : String)
  | flush
deriving Repr, DecidableEq

/-! Part: Document sections (`writer.py` lines 22-54) -/

/-- The keyword arguments retained by a `DocumentSection` after `params` is
popped; only the optional `id` entry is ever consulted by the section
lifecycle, the rest is passed through to the element untouched and is
abstracted away. -/
structure SectionArgs where
  id : Option String
deriving Repr, DecidableEq

/-- Modelled from the spec: `_element(section, **section_args)` of the
components module (absent from the sources) constructs the container element
for the section with the given tag and the id taken from the arguments. -/
structure Element where
  tag : String
  id : Option String
deriving Repr, DecidableEq

/-- A DocumentSection (writer.py lines 22-35): the section tag, the
retained arguments, the prepared parameter queue, and the lazily created
container element (`toplevel`, `None` until first use). -/
structure DocumentSection where
  sectionName : String
  sectionArgs : SectionArgs
  params : List Param
  toplevel : Option Element
deriving Repr, DecidableEq

/-- The constructor of DocumentSection (writer.py lines 24-35): stores the section
tag and arguments, pops and prepares the parameter queue, and leaves
`toplevel` unset.  `prepare_params` (components module, absent from the
sources) is `Modelled from the spec:` as the identity on the already
structured parameter list. -/
def DocumentSection.init (sectionName : String) (args : SectionArgs)
    (params : List Param) : DocumentSection :=
  { sectionName := sectionName, sectionArgs := args, params := params,
    toplevel := none }

/-- Method _create_element of DocumentSection (writer.py lines 37-42): if
`toplevel` is not yet set, build the element and, when the section was given
an `id` argument, record that identifier in the registry
(`self.context[self.section][el.id] = self.section_args['id']`); otherwise
do nothing. -/
def DocumentSection.createElement (s : DocumentSection) (r : Registry) :
    DocumentSection × Registry :=
  match s.toplevel with
  | some _ => (s, r)
  | none =>
      let el : Element := ⟨s.sectionName, s.sectionArgs.id⟩
      let r' : Registry :=
        match s.sectionArgs.id with
        | some k =>
            let st := r.getCat s.sectionName
            r.setCat s.sectionName
              ⟨(k, Ident.explicit k) :: st.table, st.assigned, st.counter⟩
        | none => r
      ({ s with toplevel := some el }, r')

/-- Method __enter__ of DocumentSection (writer.py lines 44-50): create the
element, open it on the stream (`with_id` exactly when an `id` argument was
given), then emit every queued parameter before handing control back. -/
def DocumentSection.enter (s : DocumentSection) (r : Registry)
    (st : List Event) : DocumentSection × Registry × List Event :=
  let (s', r') := s.createElement r
  (s', r',
   st ++ [Event.openTag s.sectionName s.sectionArgs.id]
      ++ s.params.map Event.param)

/-- Method __exit__ of DocumentSection (writer.py lines 52-54): close the container
element, then flush the stream. -/
def DocumentSection.exit (s : DocumentSection) (st : List Event) :
    List Event :=
  st ++ [Event.closeTag s.sectionName, Event.flush]

/-- Outcome of running a section body: normal return or a raised error of
type `ε` propagating out of the `with` block. -/
inductive Outcome (ε : Type) where
  | ok
  | raised (e : ε)
deriving Repr

/-- The Python `with` statement applied to a `DocumentSection`: `__enter__`,
then the caller's body (which may raise, leaving the registry and the stream
in whatever state its writes produced), then `__exit__` on every path, with
the body's outcome propagated unchanged. -/
def withSection {ε : Type} (s : DocumentSection) (r : Registry)
    (st : List Event)
    (body : Registry → List Event → Outcome ε × Registry × List Event) :
    Outcome ε × Registry × List Event :=
  let (s', r', st') := s.enter r st
  let (out, r'', st'') := body r' st'
  (out, r'', s'.exit st'')

/-! Part: `SpectrumIdentficationListSection` (`writer.py` lines 102-112, with
the source's spelling) and its writer method (lines 320-323). -/

/-- State of SpectrumIdentficationListSection: the underlying
`DocumentSection` plus the `fragmentation_table` popped from the section
arguments in `__init__`. -/
structure SpectrumIdentficationListSection where
  base : DocumentSection
  fragmentation_table : Option FragmentationTable
deriving Repr, DecidableEq

/-- The constructor of SpectrumIdentficationListSection (writer.py lines
103-107). -/
def SpectrumIdentficationListSection.init (args : SectionArgs)
    (params : List Param) (fragmentation_table : Option FragmentationTable) :
    SpectrumIdentficationListSection :=
  { base := DocumentSection.init "SpectrumIdentificationList" args params,
    fragmentation_table := fragmentation_table }

/-- Method __enter__ of SpectrumIdentficationListSection (writer.py lines
109-112): the base `__enter__`, then — if the fragmentation table is set
(component objects are truthy) — write it to the stream before returning
control. -/
def SpectrumIdentficationListSection.enter
    (s : SpectrumIdentficationListSection) (r : Registry)
    (st : List Event) :
    SpectrumIdentficationListSection × Registry × List Event :=
  let (b', r', st') := s.base.enter r st
  let st'' :=
    match s.fragmentation_table with
    | some t => st' ++ [Event.fragmentationTable t]
    | none => st'
  ({ s with base := b' }, r', st'')

/-- Method spectrum_identification_list of MzIdentMLWriter (writer.py lines
320-323): when `measures` is `None` a default `FragmentationTable` is
constructed; the section is built with the given id and that table. -/
def spectrum_identification_list (id : String)
    (measures : Option FragmentationTable) :
    SpectrumIdentficationListSection :=
  let measures' := measures.getD defaultFragmentationTable
  SpectrumIdentficationListSection.init ⟨some id⟩ [] (some measures')

/-! Part: `ProteinDetectionListSection` (`writer.py` lines 114-127) and its
writer method (lines 361-363). -/

/-- The diagnostic text of the `MS:1002404` missing-count warning
(`writer.py` lines 121-122). -/
def countMissingWarning : String :=
  "MS:1002404 \"count of identified proteins\" is missing."
    ++ "Provide it as either a section parameter or as the \"count\" keyword argument"

/-- The message of the `ValueError` raised when the count is supplied twice
(`writer.py` lines 124-125). -/
def countConflictMessage : String :=
  "MS:1002404 \"count of identified proteins\" was supplied both "
    ++ "as a parameter and as a keyword argument."

/-- The call self.param with name "count of identified proteins" and the count value
(`writer.py` line 127).  `Modelled from the spec:` the parameter factory of
the components module (absent from the sources) resolves the name through
the controlled-vocabulary catalog, which supplies the canonical accession
`MS:1002404` for "count of identified proteins". -/
def countParam (c : Int) : Param :=
  ⟨some "MS:1002404", "count of identified proteins", some c⟩

/-- The constructor of ProteinDetectionListSection (writer.py lines 115-127):
pop `count`, detect a `MS:1002404` parameter, warn when neither source is
present, raise `ValueError` when both are, and append the count parameter
when only the keyword was given.  Returns the constructed section together
with the emitted warnings, or the fatal error. -/
def ProteinDetectionListSection.init (args : SectionArgs)
    (count : Option Int) (params : List Param) :
    Except String (DocumentSection × List String) :=
  let base := DocumentSection.init "ProteinDetectionList" args params
  let has_count_param :=
    base.params.any (fun p => p.accession == some "MS:1002404")
  let warns :=
    if count.isNone && !has_count_param then [countMissingWarning] else []
  if count.isSome && has_count_param then
    Except.error countConflictMessage
  else
    let params' :=
      match count with
      | some c => base.params ++ [countParam c]
      | none => base.params
    Except.ok ({ base with params := params' }, warns)

/-- Method protein_detection_list of MzIdentMLWriter (writer.py lines 361-363):
constructs the section without touching the output stream (the stream is
threaded through unchanged to make that visible). -/
def protein_detection_list (id : String) (count : Option Int)
    (params : List Param) (st : List Event) :
    Except String (DocumentSection × List String) × List Event :=
  (ProteinDetectionListSection.init ⟨some id⟩ count params, st)

/-! Part: Providence (`writer.py` lines 180-215) -/

/-- Modelled from the spec: the fixed default organization identifier
(`DEFAULT_ORGANIZATION_ID` of the components module, absent from the
sources): "a fixed default identifier is registered exactly once so later
references to the default organization resolve correctly". -/
def DEFAULT_ORGANIZATION_ID : String := "ORGANIZATION_DOC_OWNER"

/-- Modelled from the spec: the fixed default contact identifier
(`DEFAULT_CONTACT_ID` of the components module, absent from the sources),
the id a `Person` defaults to when none is supplied. -/
def DEFAULT_CONTACT_ID : String := "PERSON_DOC_OWNER"

/-- A loosely-typed record describing a `Person`. -/
structure PersonRec where
  id : Option String
  affiliation : Option String
deriving Repr, DecidableEq

/-- A loosely-typed record describing an `Organization`. -/
structure OrganizationRec where
  id : Option String
deriving Repr, DecidableEq

/-- A loosely-typed record describing an `AnalysisSoftware` entry. -/
structure SoftwareRec where
  id : Option String
deriving Repr, DecidableEq

/-- The `Person` component: its registered identifier and affiliation. -/
structure Person where
  id : Ident
  affiliation : Option String
deriving Repr, DecidableEq

/-- The `Organization` component: its registered identifier. -/
structure Organization where
  id : Ident
deriving Repr, DecidableEq

/-- Modelled from the spec: `Person.ensure` / the `Person` constructor of
the components module (absent from the sources): normalizes a record into a
component, registering its identifier (defaulting to `DEFAULT_CONTACT_ID`)
under the `Person` category. -/
def ensurePerson (r : Registry) (rec : PersonRec) : Person × Registry :=
  (⟨(r.register "Person"
        (Key.explicit (rec.id.getD DEFAULT_CONTACT_ID))).1,
    rec.affiliation⟩,
   (r.register "Person"
        (Key.explicit (rec.id.getD DEFAULT_CONTACT_ID))).2)

/-- Modelled from the spec: `Organization.ensure` / the `Organization`
constructor (components module, absent from the sources): registers the
record's identifier (defaulting to `DEFAULT_ORGANIZATION_ID`) under the
`Organization` category. -/
def ensureOrganization (r : Registry) (rec : OrganizationRec) :
    Organization × Registry :=
  (⟨(r.register "Organization"
        (Key.explicit (rec.id.getD DEFAULT_ORGANIZATION_ID))).1⟩,
   (r.register "Organization"
        (Key.explicit (rec.id.getD DEFAULT_ORGANIZATION_ID))).2)

/-- Modelled from the spec: `AnalysisSoftware.ensure` (components module,
absent from the sources): registers the record's identifier — the
auto-generation sentinel when none is supplied — under the
`AnalysisSoftware` category. -/
def ensureSoftware (r : Registry) (rec : SoftwareRec) : Ident × Registry :=
  r.register "AnalysisSoftware"
    (match rec.id with
     | some s => Key.explicit s
     | none => Key.auto)

/-- Left-to-right `ensure` over a list of records, threading the registry
(the list comprehensions of `writer.py` lines 197-200). -/
def ensureList {α β : Type} (f : Registry → α → β × Registry)
    (r : Registry) : List α → List β × Registry
  | [] => ([], r)
  | x :: xs =>
      ((f r x).1 :: (ensureList f (f r x).2 xs).1,
       (ensureList f (f r x).2 xs).2)

/-- Everything `MzIdentMLWriter.providence` leaves behind: the registry, the
stream, the `Provider` contact reference, and the ensured owner and
organization components passed to the `AuditCollection`. -/
structure ProvidenceResult where
  registry : Registry
  stream : List Event
  contact : Option Ident
  owners : List Person
  organizations : List Organization
deriving Repr

/-- Method providence of MzIdentMLWriter (writer.py lines 180-215): ensure the
organizations, owners and software in that order; when both the owner and
the organization lists are empty, register the default organization
identifier and synthesize a default person/organization pair; then write
the software list, the `Provider` (whose contact is the first owner's id,
or `None` without owners) and the `AuditCollection`. -/
def providence (r : Registry) (st : List Event)
    (software : List SoftwareRec) (owner : List PersonRec)
    (organization : List OrganizationRec) : ProvidenceResult :=
  let p1 := ensureList ensureOrganization r organization
  let p2 := ensureList ensurePerson p1.2 owner
  let p3 := ensureList ensureSoftware p2.2 software
  let step : List Person × List Organization × Registry :=
    if p2.1.isEmpty && p1.1.isEmpty then
      let ra :=
        (p3.2.register "Organization"
          (Key.explicit DEFAULT_ORGANIZATION_ID)).2
      let pp := ensurePerson ra ⟨none, some DEFAULT_ORGANIZATION_ID⟩
      let oo := ensureOrganization pp.2 ⟨some DEFAULT_ORGANIZATION_ID⟩
      ([pp.1], [oo.1], oo.2)
    else (p2.1, p1.1, p3.2)
  let contact := step.1.head?.map Person.id
  { registry := step.2.2,
    stream := st ++ [Event.component "AnalysisSoftwareList",
                     Event.provider contact,
                     Event.component "AuditCollection"],
    contact := contact,
    owners := step.1,
    organizations := step.2.1 }

end Psims

namespace Psims

/-! Part: Registry lemmas -/

theorem getCat_setCat_same (r : Registry) (c : String) (s : CatState) :
    (r.setCat c s).getCat c = s := by
  simp [Registry.getCat, Registry.setCat, lookupKey]

theorem getCat_setCat_ne (r : Registry) (c c' : String) (s : CatState)
    (h : c' ≠ c) : (r.setCat c s).getCat c' = r.getCat c' := by
  simp [Registry.getCat, Registry.setCat, lookupKey, Ne.symm h]

theorem wf_empty : Registry.WF Registry.empty := by
  intro c i hi
  simp [Registry.getCat, Registry.empty, lookupKey, CatState.empty] at hi

theorem register_auto_eq (r : Registry) (cat : String) :
    r.register cat Key.auto
      = (Ident.auto (r.getCat cat).counter,
         r.setCat cat ⟨(r.getCat cat).table,
           Ident.auto (r.getCat cat).counter :: (r.getCat cat).assigned,
           (r.getCat cat).counter + 1⟩) := rfl

/-- C1: a bare numeric tolerance strictly below 1e-4 is emitted as
parts-per-million with the value scaled by 1e6; any other bare numeric
tolerance, the boundary 1e-4 included, is emitted as dalton with the value
unchanged — for both the fragment and the parent tolerance. -/
theorem tolerance_unit_policy (q : ℚ) :
    (q < 1 / 10000 →
      resolveFragmentTolerance (ToleranceInput.number q)
        = some ⟨q * 1000000, none, "parts per million"⟩ ∧
      resolveParentTolerance (ToleranceInput.number q)
        = some ⟨q * 1000000, none, "parts per million"⟩) ∧
    (1 / 10000 ≤ q →
      resolveFragmentTolerance (ToleranceInput.number q)
        = some ⟨q, none, "dalton"⟩ ∧
      resolveParentTolerance (ToleranceInput.number q)
        = some ⟨q, none, "dalton"⟩) := by
  constructor
  · intro h
    have h' : q < (10000 : ℚ)⁻¹ := by rwa [one_div] at h
    simp [resolveFragmentTolerance, resolveParentTolerance, h']
  · intro h
    have h' : ¬ q < (10000 : ℚ)⁻¹ := by
      rw [not_lt]
      rwa [one_div] at h
    simp [resolveFragmentTolerance, resolveParentTolerance, h']

/-- C1 witness: 5e-6 yields 5.0 parts-per-million, 0.02 yields 0.02 dalton,
and the boundary 1e-4 itself yields dalton. -/
theorem tolerance_unit_policy_witness :
    resolveFragmentTolerance (ToleranceInput.number (1 / 200000))
      = some ⟨5, none, "parts per million"⟩ ∧
    resolveFragmentTolerance (ToleranceInput.number (1 / 50))
      = some ⟨1 / 50, none, "dalton"⟩ ∧
    resolveFragmentTolerance (ToleranceInput.number (1 / 10000))
      = some ⟨1 / 10000, none, "dalton"⟩ := by
  refine ⟨?_, ?_, ?_⟩
  · have h := (tolerance_unit_policy (1 / 200000)).1 (by norm_num)
    rw [h.1]
    norm_num
  · exact ((tolerance_unit_policy (1 / 50)).2 (by norm_num)).1
  · exact ((tolerance_unit_policy (1 / 10000)).2 (by norm_num)).1

theorem register_explicit_of_lookup_some (r : Registry) (cat s : String)
    (i : Ident) (h : lookupKey s (r.getCat cat).table = some i) :
    r.register cat (Key.explicit s) = (i, r) := by
  simp [Registry.register, h]

theorem register_explicit_of_lookup_none (r : Registry) (cat s : String)
    (h : lookupKey s (r.getCat cat).table = none) :
    r.register cat (Key.explicit s)
      = (Ident.explicit s,
         r.setCat cat
           ⟨(s, Ident.explicit s) :: (r.getCat cat).table,
            Ident.explicit s :: (r.getCat cat).assigned,
            (r.getCat cat).counter⟩) := by
  simp [Registry.register, h]

theorem getCat_register_ne (r : Registry) (cat cat' : String) (k : Key)
    (h : cat' ≠ cat) :
    ((r.register cat k).2).getCat cat' = r.getCat cat' := by
  cases k with
  | auto =>
      rw [register_auto_eq]
      exact getCat_setCat_ne _ _ _ _ h
  | explicit s =>
      cases hl : lookupKey s (r.getCat cat).table with
      | some i => rw [register_explicit_of_lookup_some r cat s i hl]
      | none =>
          rw [register_explicit_of_lookup_none r cat s hl]
          exact getCat_setCat_ne _ _ _ _ h

theorem lookup_register_explicit_ne (r : Registry) (cat s k : String)
    (h : s ≠ k) :
    lookupKey k (((r.register cat (Key.explicit s)).2).getCat cat).table
      = lookupKey k (r.getCat cat).table := by
  cases hl : lookupKey s (r.getCat cat).table with
  | some i => rw [register_explicit_of_lookup_some r cat s i hl]
  | none =>
      rw [register_explicit_of_lookup_none r cat s hl]
      rw [getCat_setCat_same]
      simp [lookupKey, h]

theorem getCat_ensureList {α β : Type} (f : Registry → α → β × Registry)
    (c : String)
    (hf : ∀ (r : Registry) (x : α), ((f r x).2).getCat c = r.getCat c)
    (r : Registry) (xs : List α) :
    ((ensureList f r xs).2).getCat c = r.getCat c := by
  induction xs generalizing r with
  | nil => rfl
  | cons x xs ih =>
      show ((ensureList f (f r x).2 xs).2).getCat c = r.getCat c
      rw [ih]
      exact hf r x

theorem ensureList_length {α β : Type} (f : Registry → α → β × Registry)
    (r : Registry) (xs : List α) :
    ((ensureList f r xs).1).length = xs.length := by
  induction xs generalizing r with
  | nil => rfl
  | cons x xs ih =>
      show ((f r x).1 :: (ensureList f (f r x).2 xs).1).length = xs.length + 1
      rw [List.length_cons, ih]

theorem getCat_ensureSoftware_ne (c : String)
    (h : c ≠ "AnalysisSoftware") (r : Registry) (xs : List SoftwareRec) :
    ((ensureList ensureSoftware r xs).2).getCat c = r.getCat c :=
  getCat_ensureList ensureSoftware c
    (fun r _x => getCat_register_ne r "AnalysisSoftware" c _ h) r xs

theorem getCat_ensureOrganization_ne (c : String)
    (h : c ≠ "Organization") (r : Registry) (xs : List OrganizationRec) :
    ((ensureList ensureOrganization r xs).2).getCat c = r.getCat c :=
  getCat_ensureList ensureOrganization c
    (fun r _x => getCat_register_ne r "Organization" c _ h) r xs

theorem getCat_ensurePerson_ne (c : String)
    (h : c ≠ "Person") (r : Registry) (xs : List PersonRec) :
    ((ensureList ensurePerson r xs).2).getCat c = r.getCat c :=
  getCat_ensureList ensurePerson c
    (fun r _x => getCat_register_ne r "Person" c _ h) r xs

theorem lookup_default_ensureOrganization_list (r : Registry)
    (orgs : List OrganizationRec)
    (h : ∀ rec ∈ orgs, ∃ s, rec.id = some s
        ∧ s ≠ DEFAULT_ORGANIZATION_ID) :
    lookupKey DEFAULT_ORGANIZATION_ID
      (((ensureList ensureOrganization r orgs).2).getCat
        "Organization").table
      = lookupKey DEFAULT_ORGANIZATION_ID
          (r.getCat "Organization").table := by
  induction orgs generalizing r with
  | nil => rfl
  | cons o os ih =>
      obtain ⟨s, hs, hne⟩ := h o (by simp)
      show lookupKey DEFAULT_ORGANIZATION_ID
          (((ensureList ensureOrganization (ensureOrganization r o).2
              os).2).getCat "Organization").table = _
      rw [ih _ (fun rec hr => h rec (by simp [hr]))]
      show lookupKey DEFAULT_ORGANIZATION_ID
          (((r.register "Organization"
              (Key.explicit (o.id.getD DEFAULT_ORGANIZATION_ID))).2).getCat
            "Organization").table = _
      rw [hs]
      exact lookup_register_explicit_ne r "Organization" s
        DEFAULT_ORGANIZATION_ID hne

theorem providence_nil_eq (r : Registry) (st : List Event)
    (software : List SoftwareRec) :
    providence r st software [] []
      = (let r3 := (ensureList ensureSoftware r software).2
         let ra := (r3.register "Organization"
             (Key.explicit DEFAULT_ORGANIZATION_ID)).2
         let pp := ensurePerson ra ⟨none, some DEFAULT_ORGANIZATION_ID⟩
         let oo := ensureOrganization pp.2 ⟨some DEFAULT_ORGANIZATION_ID⟩
         { registry := oo.2,
           stream := st ++ [Event.component "AnalysisSoftwareList",
                            Event.provider (some pp.1.id),
                            Event.component "AuditCollection"],
           contact := some pp.1.id,
           owners := [pp.1],
           organizations := [oo.1] }) := rfl

theorem enter_sectionName (s : DocumentSection) (r : Registry)
    (st : List Event) : ((s.enter r st).1).sectionName = s.sectionName := by
  cases h : s.toplevel <;>
    simp [DocumentSection.enter, DocumentSection.createElement, h]

/-- C3: leaving an entered document section — on normal return and on every
raising body — closes the container element on the stream and then flushes
it, and the body's outcome (including a raised error) is propagated
unchanged. -/
theorem section_exit_closes_and_flushes {ε : Type} (s : DocumentSection)
    (r : Registry) (st : List Event)
    (body : Registry → List Event → Outcome ε × Registry × List Event) :
    (withSection s r st body).1
      = (body (s.enter r st).2.1 (s.enter r st).2.2).1 ∧
    ∃ pre : List Event,
      (withSection s r st body).2.2
        = pre ++ [Event.closeTag s.sectionName, Event.flush] := by
  have hname := enter_sectionName s r st
  rcases he : s.enter r st with ⟨s', r', st'⟩
  simp only [he] at hname
  rcases hb : body r' st' with ⟨out, r'', st''⟩
  refine ⟨?_, st'', ?_⟩
  · simp [withSection, he, hb]
  · simp [withSection, he, hb, DocumentSection.exit, hname]

/-- C7: entering a document section materializes its container element,
records a given `id` argument in the registry, and emits every queued
parameter immediately after the open tag, before control returns to the
caller. -/
theorem section_enter_emits_params_after_open (s : DocumentSection)
    (r : Registry) (st : List Event) (h : s.toplevel = none) :
    (s.enter r st).2.2
      = st ++ [Event.openTag s.sectionName s.sectionArgs.id]
          ++ s.params.map Event.param ∧
    ((s.enter r st).1).toplevel = some ⟨s.sectionName, s.sectionArgs.id⟩ ∧
    (∀ k : String, s.sectionArgs.id = some k →
      lookupKey k (((s.enter r st).2.1).getCat s.sectionName).table
        = some (Ident.explicit k)) := by
  refine ⟨rfl, ?_, ?_⟩
  · simp [DocumentSection.enter, DocumentSection.createElement, h]
  · intro k hk
    simp [DocumentSection.enter, DocumentSection.createElement, h, hk,
      getCat_setCat_same, lookupKey]

/-- C7 witness: entering a fresh `Inputs` section with id `IN_1` on the
empty registry writes the open tag (there are no queued parameters) and
records `IN_1` in the registry. -/
theorem section_enter_emits_params_after_open_witness :
    (DocumentSection.init "Inputs" ⟨some "IN_1"⟩ []).toplevel = none ∧
    ((DocumentSection.init "Inputs" ⟨some "IN_1"⟩ []).enter
        Registry.empty []).2.2 = [Event.openTag "Inputs" (some "IN_1")] ∧
    lookupKey "IN_1"
      ((((DocumentSection.init "Inputs" ⟨some "IN_1"⟩ []).enter
          Registry.empty []).2.1).getCat "Inputs").table
      = some (Ident.explicit "IN_1") := by
  have h := section_enter_emits_params_after_open
    (DocumentSection.init "Inputs" ⟨some "IN_1"⟩ []) Registry.empty [] rfl
  exact ⟨rfl, by simpa using h.1, h.2.2 "IN_1" rfl⟩

/-- C9: the container element is created lazily — a freshly initialized
section has no materialized element — and element creation is idempotent: a
second invocation on the same section leaves section and registry
unchanged. -/
theorem create_element_lazy_and_idempotent (sectionName : String)
    (args : SectionArgs) (params : List Param) (s : DocumentSection)
    (r : Registry) :
    (DocumentSection.init sectionName args params).toplevel = none ∧
    ((s.createElement r).1.createElement (s.createElement r).2)
      = ((s.createElement r).1, (s.createElement r).2) := by
  refine ⟨rfl, ?_⟩
  cases h : s.toplevel with
  | some el => simp [DocumentSection.createElement, h]
  | none => simp [DocumentSection.createElement, h]

/-- C8: entering a spectrum-identification-list section writes the
fragmentation table as the first child — after the open tag and the queued
parameters, before control returns to the caller — and
`spectrum_identification_list` with `measures = none` constructs and uses
the default fragmentation table. -/
theorem sil_section_prepopulates_fragmentation_table (id : String)
    (measures : Option FragmentationTable) (r : Registry)
    (st : List Event) :
    ((spectrum_identification_list id measures).enter r st).2.2
      = st ++ [Event.openTag "SpectrumIdentificationList" (some id),
          Event.fragmentationTable
            (measures.getD defaultFragmentationTable)] ∧
    (∀ (args : SectionArgs) (params : List Param) (t : FragmentationTable)
        (r' : Registry) (st' : List Event),
      ((SpectrumIdentficationListSection.init args params (some t)).enter
          r' st').2.2
        = st' ++ [Event.openTag "SpectrumIdentificationList" args.id]
            ++ params.map Event.param ++ [Event.fragmentationTable t]) := by
  constructor
  · simp [spectrum_identification_list,
      SpectrumIdentficationListSection.init,
      SpectrumIdentficationListSection.enter, DocumentSection.init,
      DocumentSection.enter, DocumentSection.createElement]
  · intro args params t r' st'
    simp [SpectrumIdentficationListSection.init,
      SpectrumIdentficationListSection.enter, DocumentSection.init,
      DocumentSection.enter, DocumentSection.createElement]

/-- C2: supplying the protein count both as the explicit `count` argument
and as a `MS:1002404` parameter makes the protein-detection-list
construction fail with the `ValueError`, and nothing is emitted to the
stream. -/
theorem protein_count_conflict_fatal (id : String) (c : Int)
    (count : Option Int) (params : List Param) (st : List Event)
    (hc : count = some c)
    (hp : ∃ p ∈ params, p.accession = some "MS:1002404") :
    (protein_detection_list id count params st).1
      = Except.error countConflictMessage ∧
    (protein_detection_list id count params st).2 = st := by
  have htrue : params.any (fun p => p.accession == some "MS:1002404")
      = true := by
    rw [List.any_eq_true]
    rcases hp with ⟨p, hmem, hacc⟩
    exact ⟨p, hmem, by simp [hacc]⟩
  refine ⟨?_, rfl⟩
  simp [protein_detection_list, ProteinDetectionListSection.init,
    DocumentSection.init, hc, htrue]

/-- C2 witness: count `10` together with a `MS:1002404` parameter on section
`PDL_1` fails fatally and leaves the (empty) stream untouched. -/
theorem protein_count_conflict_fatal_witness :
    (protein_detection_list "PDL_1" (some 10) [countParam 10] []).1
      = Except.error countConflictMessage ∧
    (protein_detection_list "PDL_1" (some 10) [countParam 10] []).2
      = ([] : List Event) :=
  protein_count_conflict_fatal "PDL_1" 10 (some 10) [countParam 10] [] rfl
    ⟨countParam 10, by simp, rfl⟩

/-- C6: with neither an explicit count nor a `MS:1002404` parameter, the
protein-detection-list construction succeeds, emits exactly the
missing-count warning, and keeps the parameter list unchanged (the count
field is omitted). -/
theorem protein_count_missing_warns_and_proceeds (id : String)
    (params : List Param) (st : List Event)
    (hp : ∀ p ∈ params, p.accession ≠ some "MS:1002404") :
    (protein_detection_list id none params st).1
      = Except.ok
          (⟨"ProteinDetectionList", ⟨some id⟩, params, none⟩,
            [countMissingWarning]) ∧
    (protein_detection_list id none params st).2 = st := by
  have hfalse : params.any (fun p => p.accession == some "MS:1002404")
      = false := by
    rw [List.any_eq_false]
    intro p hmem
    simpa using hp p hmem
  refine ⟨?_, rfl⟩
  simp [protein_detection_list, ProteinDetectionListSection.init,
    DocumentSection.init, hfalse]

/-- C6 witness: no count and no parameters on section `PDL_1` yields the
warning and an unchanged empty parameter list. -/
theorem protein_count_missing_warns_and_proceeds_witness :
    (protein_detection_list "PDL_1" none [] []).1
      = Except.ok
          (⟨"ProteinDetectionList", ⟨some "PDL_1"⟩, [], none⟩,
            [countMissingWarning]) ∧
    (protein_detection_list "PDL_1" none [] []).2 = ([] : List Event) :=
  protein_count_missing_warns_and_proceeds "PDL_1" [] [] (by simp)

/-- C4: registering the same `(category, key)` pair twice returns the same
identifier both times, and registering with the auto-generation sentinel
returns a fresh identifier on each call, distinct from every identifier
previously assigned within that category. -/
theorem register_idempotent_and_auto_fresh (r : Registry) (cat : String)
    (s : String) (hwf : r.WF) :
    ((r.register cat (Key.explicit s)).2.register cat (Key.explicit s)).1
      = (r.register cat (Key.explicit s)).1 ∧
    (r.register cat Key.auto).1 ∉ (r.getCat cat).assigned ∧
    ((r.register cat Key.auto).2.register cat Key.auto).1
      ≠ (r.register cat Key.auto).1 ∧
    ((r.register cat Key.auto).2.register cat Key.auto).1
      ∉ ((r.register cat Key.auto).2.getCat cat).assigned := by
  refine ⟨?_, ?_, ?_, ?_⟩
  · cases h : lookupKey s (r.getCat cat).table with
    | some i =>
        simp [Registry.register, h]
    | none =>
        simp [Registry.register, h, getCat_setCat_same, lookupKey]
  · intro hmem
    simp only [register_auto_eq] at hmem
    exact lt_irrefl _ (hwf cat _ hmem (r.getCat cat).counter rfl)
  · simp only [register_auto_eq, getCat_setCat_same]
    simp
  · intro hmem
    simp only [register_auto_eq, getCat_setCat_same, List.mem_cons] at hmem
    cases hmem with
    | inl h => exact absurd h (by simp)
    | inr h =>
        have hlt := hwf cat _ h ((r.getCat cat).counter + 1) rfl
        omega

/-- C4 witness: on the empty registry (well-formed), the double explicit
registration of the key `PEP_1` under the category `Peptide` and the double
auto registration satisfy the property. -/
theorem register_idempotent_and_auto_fresh_witness :
    Registry.WF Registry.empty ∧
    (((Registry.empty.register "Peptide" (Key.explicit "PEP_1")).2.register
        "Peptide" (Key.explicit "PEP_1")).1
      = (Registry.empty.register "Peptide" (Key.explicit "PEP_1")).1 ∧
    (Registry.empty.register "Peptide" Key.auto).1
      ∉ (Registry.empty.getCat "Peptide").assigned ∧
    ((Registry.empty.register "Peptide" Key.auto).2.register "Peptide"
        Key.auto).1 ≠ (Registry.empty.register "Peptide" Key.auto).1 ∧
    ((Registry.empty.register "Peptide" Key.auto).2.register "Peptide"
        Key.auto).1
      ∉ ((Registry.empty.register "Peptide" Key.auto).2.getCat
          "Peptide").assigned) :=
  ⟨wf_empty, register_idempotent_and_auto_fresh Registry.empty "Peptide"
    "PEP_1" wf_empty⟩

/-- C5: providence with no owner and no organization synthesizes the
default pair: the default organization identifier is registered exactly once
(one new table entry), the one synthesized `Person` has that identifier as
its affiliation, the one synthesized `Organization` has it as its id, and a
later registration of the default organization key resolves to that same
identifier. -/
theorem providence_default_pair (r : Registry) (st : List Event)
    (software : List SoftwareRec)
    (horg : lookupKey DEFAULT_ORGANIZATION_ID
        (r.getCat "Organization").table = none)
    (hper : lookupKey DEFAULT_CONTACT_ID
        (r.getCat "Person").table = none) :
    (providence r st software [] []).owners
      = [⟨Ident.explicit DEFAULT_CONTACT_ID,
          some DEFAULT_ORGANIZATION_ID⟩] ∧
    (providence r st software [] []).organizations
      = [⟨Ident.explicit DEFAULT_ORGANIZATION_ID⟩] ∧
    ((providence r st software [] []).registry.getCat "Organization").table
      = (DEFAULT_ORGANIZATION_ID, Ident.explicit DEFAULT_ORGANIZATION_ID)
          :: (r.getCat "Organization").table ∧
    ((providence r st software [] []).registry.register "Organization"
        (Key.explicit DEFAULT_ORGANIZATION_ID)).1
      = Ident.explicit DEFAULT_ORGANIZATION_ID := by
  have h3o : ((ensureList ensureSoftware r software).2).getCat
      "Organization" = r.getCat "Organization" :=
    getCat_ensureSoftware_ne "Organization" (by decide) r software
  have h3p : ((ensureList ensureSoftware r software).2).getCat "Person"
      = r.getCat "Person" :=
    getCat_ensureSoftware_ne "Person" (by decide) r software
  set r3 := (ensureList ensureSoftware r software).2 with hr3
  set S1 : CatState :=
    ⟨(DEFAULT_ORGANIZATION_ID, Ident.explicit DEFAULT_ORGANIZATION_ID)
        :: (r.getCat "Organization").table,
      Ident.explicit DEFAULT_ORGANIZATION_ID
        :: (r.getCat "Organization").assigned,
      (r.getCat "Organization").counter⟩ with hS1
  have e1 : r3.register "Organization"
      (Key.explicit DEFAULT_ORGANIZATION_ID)
      = (Ident.explicit DEFAULT_ORGANIZATION_ID,
         r3.setCat "Organization" S1) := by
    have h := register_explicit_of_lookup_none r3 "Organization"
      DEFAULT_ORGANIZATION_ID (by rw [h3o]; exact horg)
    rw [h, hS1, h3o]
  set RA := r3.setCat "Organization" S1 with hRA
  have hRAp : RA.getCat "Person" = r.getCat "Person" := by
    rw [hRA, getCat_setCat_ne _ _ _ _
      (by decide : ("Person" : String) ≠ "Organization"), h3p]
  set SP : CatState :=
    ⟨(DEFAULT_CONTACT_ID, Ident.explicit DEFAULT_CONTACT_ID)
        :: (r.getCat "Person").table,
      Ident.explicit DEFAULT_CONTACT_ID :: (r.getCat "Person").assigned,
      (r.getCat "Person").counter⟩ with hSP
  have e2 : ensurePerson RA ⟨none, some DEFAULT_ORGANIZATION_ID⟩
      = (⟨Ident.explicit DEFAULT_CONTACT_ID,
          some DEFAULT_ORGANIZATION_ID⟩,
         RA.setCat "Person" SP) := by
    have h := register_explicit_of_lookup_none RA "Person"
      DEFAULT_CONTACT_ID (by rw [hRAp]; exact hper)
    simp only [ensurePerson, Option.getD_none]
    rw [h, hSP, hRAp]
  set RB := RA.setCat "Person" SP with hRB
  have hRBo : RB.getCat "Organization" = S1 := by
    rw [hRB, getCat_setCat_ne _ _ _ _
      (by decide : ("Organization" : String) ≠ "Person"), hRA,
      getCat_setCat_same]
  have hl : lookupKey DEFAULT_ORGANIZATION_ID
      (RB.getCat "Organization").table
      = some (Ident.explicit DEFAULT_ORGANIZATION_ID) := by
    rw [hRBo, hS1]
    simp [lookupKey]
  have e3 : ensureOrganization RB ⟨some DEFAULT_ORGANIZATION_ID⟩
      = (⟨Ident.explicit DEFAULT_ORGANIZATION_ID⟩, RB) := by
    have h := register_explicit_of_lookup_some RB "Organization"
      DEFAULT_ORGANIZATION_ID _ hl
    simp only [ensureOrganization, Option.getD_some]
    rw [h]
  rw [providence_nil_eq]
  simp only [← hr3, e1, e2, e3]
  refine ⟨trivial, trivial, ?_, ?_⟩
  · rw [hRBo, hS1]
  · rw [register_explicit_of_lookup_some RB "Organization"
      DEFAULT_ORGANIZATION_ID _ hl]

theorem providence_eq_of_cond_false (r : Registry) (st : List Event)
    (software : List SoftwareRec) (owner : List PersonRec)
    (organization : List OrganizationRec)
    (h : ((ensureList ensurePerson
            (ensureList ensureOrganization r organization).2 owner).1.isEmpty
          && (ensureList ensureOrganization r organization).1.isEmpty)
        = false) :
    providence r st software owner organization
      = { registry := (ensureList ensureSoftware
            (ensureList ensurePerson
              (ensureList ensureOrganization r organization).2 owner).2
            software).2,
          stream := st ++ [Event.component "AnalysisSoftwareList",
            Event.provider ((ensureList ensurePerson
              (ensureList ensureOrganization r organization).2
              owner).1.head?.map Person.id),
            Event.component "AuditCollection"],
          contact := (ensureList ensurePerson
              (ensureList ensureOrganization r organization).2
              owner).1.head?.map Person.id,
          owners := (ensureList ensurePerson
              (ensureList ensureOrganization r organization).2 owner).1,
          organizations :=
            (ensureList ensureOrganization r organization).1 } := by
  simp only [providence, h]
  simp

/-- C5 witness: on the empty registry with no software, the default pair is
synthesized exactly as stated. -/
theorem providence_default_pair_witness :
    (providence Registry.empty [] [] [] []).owners
      = [⟨Ident.explicit DEFAULT_CONTACT_ID,
          some DEFAULT_ORGANIZATION_ID⟩] ∧
    (providence Registry.empty [] [] [] []).organizations
      = [⟨Ident.explicit DEFAULT_ORGANIZATION_ID⟩] ∧
    ((providence Registry.empty [] [] [] []).registry.getCat
        "Organization").table
      = [(DEFAULT_ORGANIZATION_ID,
          Ident.explicit DEFAULT_ORGANIZATION_ID)] ∧
    ((providence Registry.empty [] [] [] []).registry.register
        "Organization" (Key.explicit DEFAULT_ORGANIZATION_ID)).1
      = Ident.explicit DEFAULT_ORGANIZATION_ID := by
  have h := providence_default_pair Registry.empty [] [] rfl rfl
  exact ⟨h.1, h.2.1, h.2.2.1, h.2.2.2⟩

/-- C10: the default pair is injected only when both owner and organization
are empty — when at least one owner is supplied, the `Provider` contact is
the first owner's identifier and the ensured lists pass through unchanged in
length; when only organizations are supplied, the contact is `None`, no
person is created, the `Person` category is untouched, and (when no supplied
record names the default identifier) the default organization identifier
stays unregistered. -/
theorem providence_first_owner_contact_no_default
    (r : Registry) (st : List Event) (software : List SoftwareRec)
    (owner : List PersonRec) (organization : List OrganizationRec) :
    (∀ (o : PersonRec) (os : List PersonRec), owner = o :: os →
      (providence r st software owner organization).contact
        = some ((ensurePerson
            (ensureList ensureOrganization r organization).2 o).1.id) ∧
      (providence r st software owner organization).owners.length
        = owner.length ∧
      (providence r st software owner organization).organizations.length
        = organization.length) ∧
    (owner = [] → organization ≠ [] →
      (providence r st software owner organization).contact = none ∧
      (providence r st software owner organization).owners = [] ∧
      (providence r st software owner organization).registry.getCat "Person"
        = r.getCat "Person") ∧
    (owner = [] → organization ≠ [] →
      (∀ rec ∈ organization, ∃ s, rec.id = some s
          ∧ s ≠ DEFAULT_ORGANIZATION_ID) →
      lookupKey DEFAULT_ORGANIZATION_ID
        ((providence r st software owner
            organization).registry.getCat "Organization").table
        = lookupKey DEFAULT_ORGANIZATION_ID
            (r.getCat "Organization").table) := by
  refine ⟨?_, ?_, ?_⟩
  · intro o os ho
    subst ho
    have hcond : ((ensureList ensurePerson
          (ensureList ensureOrganization r organization).2
          (o :: os)).1.isEmpty
        && (ensureList ensureOrganization r organization).1.isEmpty)
        = false := by
      simp [ensureList]
    rw [providence_eq_of_cond_false _ _ _ _ _ hcond]
    refine ⟨?_, ?_, ?_⟩
    · simp [ensureList]
    · simp [ensureList_length]
    · simp [ensureList_length]
  · intro ho hg
    subst ho
    cases organization with
    | nil => exact absurd rfl hg
    | cons g gs =>
        have hcond : ((ensureList ensurePerson
              (ensureList ensureOrganization r (g :: gs)).2 []).1.isEmpty
            && (ensureList ensureOrganization r (g :: gs)).1.isEmpty)
            = false := by
          simp [ensureList]
        rw [providence_eq_of_cond_false _ _ _ _ _ hcond]
        refine ⟨rfl, rfl, ?_⟩
        show ((ensureList ensureSoftware
            (ensureList ensurePerson
              (ensureList ensureOrganization r (g :: gs)).2 []).2
            software).2).getCat "Person" = r.getCat "Person"
        rw [getCat_ensureSoftware_ne "Person" (by decide)]
        show ((ensureList ensureOrganization r (g :: gs)).2).getCat "Person"
          = r.getCat "Person"
        exact getCat_ensureOrganization_ne "Person" (by decide) r (g :: gs)
  · intro ho hg hno
    subst ho
    cases organization with
    | nil => exact absurd rfl hg
    | cons g gs =>
        have hcond : ((ensureList ensurePerson
              (ensureList ensureOrganization r (g :: gs)).2 []).1.isEmpty
            && (ensureList ensureOrganization r (g :: gs)).1.isEmpty)
            = false := by
          simp [ensureList]
        rw [providence_eq_of_cond_false _ _ _ _ _ hcond]
        show lookupKey DEFAULT_ORGANIZATION_ID
            (((ensureList ensureSoftware
              (ensureList ensurePerson
                (ensureList ensureOrganization r (g :: gs)).2 []).2
              software).2).getCat "Organization").table = _
        rw [getCat_ensureSoftware_ne "Organization" (by decide)]
        show lookupKey DEFAULT_ORGANIZATION_ID
            (((ensureList ensureOrganization r (g :: gs)).2).getCat
              "Organization").table = _
        exact lookup_default_ensureOrganization_list r (g :: gs) hno

/-- C10 witness: with one owner `PER_1` and one organization `ORG_X` the
contact is `PER_1`; with only the organization `ORG_X` the contact is
`None`, no owner component exists, and the default organization identifier
is not registered. -/
theorem providence_first_owner_contact_no_default_witness :
    (providence Registry.empty [] [] [⟨some "PER_1", none⟩]
        [⟨some "ORG_X"⟩]).contact = some (Ident.explicit "PER_1") ∧
    (providence Registry.empty [] [] [] [⟨some "ORG_X"⟩]).contact = none ∧
    (providence Registry.empty [] [] [] [⟨some "ORG_X"⟩]).owners = [] ∧
    lookupKey DEFAULT_ORGANIZATION_ID
      (((providence Registry.empty [] [] []
          [⟨some "ORG_X"⟩]).registry.getCat "Organization").table) = none := by
  have h1 := (providence_first_owner_contact_no_default Registry.empty [] []
    [⟨some "PER_1", none⟩] [⟨some "ORG_X"⟩]).1 ⟨some "PER_1", none⟩ [] rfl
  have h2 := (providence_first_owner_contact_no_default Registry.empty [] []
    [] [⟨some "ORG_X"⟩]).2.1 rfl (by simp)
  have h3 := (providence_first_owner_contact_no_default Registry.empty [] []
    [] [⟨some "ORG_X"⟩]).2.2 rfl (by simp)
    (by
      intro rec hr
      simp only [List.mem_singleton] at hr
      subst hr
      exact ⟨"ORG_X", rfl, by decide⟩)
  refine ⟨?_, h2.1, h2.2.1, ?_⟩
  · rw [h1.1]
    rfl
  · rw [h3]
    rfl

end Psims
